import Mathlib

/-!
Verification development for the SSDL-SatPass-Notification repository.

The Python sources are shallowly embedded:
* Python `str` values are modelled as `List Char` (a Python string is a
  sequence of code points, exactly as a `List Char` is).
* Python machine floats that carry exact decimal data in this program
  (magnitudes, elevations, MJD day-fractions) are modelled as `ℚ`;
  `float("nan")` is modelled by the dedicated constructor `FloatV.nan`.
* Fallible Python code (uncaught exceptions) is modelled with `Except PErr`.
* All scanners are written with an explicit fuel argument equal to the
  input length, so every definition is a computable structural recursion
  that the kernel can evaluate on concrete inputs.
-/

namespace SatPass

-- Batteries marks the `Rat` field operations `@[irreducible]`; the concrete
-- evaluations below need them to reduce in the kernel, so they are restored
-- to the default reducibility for this file.
set_option allowUnsafeReducibility true

attribute [semireducible] Rat.mul Rat.add Rat.inv Rat.sub

/-- Python exception kinds raised by the embedded code paths. -/
inductive PErr where
  | valueError
  | indexError
  | nameError
  | keyError
  | erfaError
deriving DecidableEq, Repr

/-- Equality of `Except` results is decidable componentwise; used to state
concrete evaluations of the embedded fallible code. -/
instance {ε α : Type} [DecidableEq ε] [DecidableEq α] : DecidableEq (Except ε α) := fun x y =>
  match x, y with
  | .ok a, .ok b =>
    if h : a = b then .isTrue (by rw [h]) else .isFalse (by intro hc; cases hc; exact h rfl)
  | .error a, .error b =>
    if h : a = b then .isTrue (by rw [h]) else .isFalse (by intro hc; cases hc; exact h rfl)
  | .ok _, .error _ => .isFalse (by intro hc; cases hc)
  | .error _, .ok _ => .isFalse (by intro hc; cases hc)

/-- Reduction lemma for the `Except` plumbing of the embedded code. -/
@[simp] theorem except_ok_bind {ε α β : Type} (a : α) (f : α → Except ε β) :
    (Except.ok a : Except ε α).bind f = f a := rfl

/-- An exception short-circuits the rest of the straight-line block. -/
@[simp] theorem except_error_bind {ε α β : Type} (e : ε) (f : α → Except ε β) :
    (Except.error e : Except ε α).bind f = .error e := rfl

/-- `Except.map` over the two results. -/
@[simp] theorem except_map_ok {ε α β : Type} (g : α → β) (a : α) :
    Except.map g (Except.ok a : Except ε α) = .ok (g a) := rfl

@[simp] theorem except_map_error {ε α β : Type} (g : α → β) (e : ε) :
    Except.map g (Except.error e : Except ε α) = .error e := rfl

/-- Python `str` as a sequence of code points. -/
abbrev Str := List Char

/-- Convenience: Lean string literal to the `Str` model. -/
def strL (s : String) : Str := s.toList

/-- ASCII whitespace recognised by Python's `str.strip()` (restricted to the
whitespace characters that can occur in the inputs of this program). -/
def isPyWs (c : Char) : Bool :=
  c = ' ' || c = '\t' || c = '\n' || c = '\r' || c = '\x0b' || c = '\x0c'

/-- Python `str.strip()`. -/
def pyStrip (s : Str) : Str :=
  ((s.dropWhile isPyWs).reverse.dropWhile isPyWs).reverse

/-- Python `str.replace(pat, "")` (leftmost, non-overlapping removal of the
pattern), written with fuel for kernel evaluation; `pat` is nonempty at
every call site. -/
def removeSeqGo (pat : Str) : Nat → Str → Str
  | 0, s => s
  | fuel + 1, s =>
    if pat.isPrefixOf s then removeSeqGo pat fuel (s.drop pat.length)
    else
      match s with
      | [] => []
      | c :: t => c :: removeSeqGo pat fuel t

def removeSeq (pat s : Str) : Str := removeSeqGo pat s.length s

/-- Decimal digit test. -/
def isDig (c : Char) : Bool := '0' ≤ c && c ≤ '9'

def digVal (c : Char) : Nat := c.toNat - '0'.toNat

/-- Value of a digit run (most significant first). -/
def digitsVal (ds : Str) : Nat := ds.foldl (fun a c => 10 * a + digVal c) 0

/-- Python `int(s)`: optional sign, then a nonempty digit run, with
surrounding whitespace allowed. (Underscore separators are not modelled;
they do not occur in this program's inputs.) -/
def pyInt (s : Str) : Option ℤ :=
  let t := pyStrip s
  let core : Str → Option ℤ := fun u =>
    match u with
    | [] => none
    | _ =>
      if u.all isDig then some (digitsVal u : ℤ) else none
  match t with
  | '+' :: u => core u
  | '-' :: u => (core u).map Neg.neg
  | u => core u

/-- Python `float(s)` for finite decimal literals: optional sign,
`digits [. digits]` or `. digits`, optional exponent, surrounding
whitespace allowed. The named values `inf`/`nan` and underscore separators
are not modelled (they do not occur in this program's inputs); the result
is the exact rational value of the literal. -/
def pyFloat (s : Str) : Option ℚ :=
  let t := pyStrip s
  let sgn : ℚ × Str :=
    match t with
    | '+' :: u => (1, u)
    | '-' :: u => (-1, u)
    | u => (1, u)
  let u := sgn.2
  let ip := u.takeWhile isDig
  let rest1 := u.drop ip.length
  let fracPart : Option (Str × Str) :=
    match rest1 with
    | '.' :: v =>
      let fp := v.takeWhile isDig
      some (fp, v.drop fp.length)
    | v => some ([], v)
  match fracPart with
  | none => none
  | some (fp, rest2) =>
    if ip = [] ∧ fp = [] then none
    else
      let mant : ℚ := (digitsVal ip : ℚ) + (digitsVal fp : ℚ) / ((10 : ℚ) ^ fp.length)
      match rest2 with
      | [] => some (sgn.1 * mant)
      | e :: v =>
        if e = 'e' ∨ e = 'E' then
          let esgn : ℤ × Str :=
            match v with
            | '+' :: w => (1, w)
            | '-' :: w => (-1, w)
            | w => (1, w)
          let ed := esgn.2.takeWhile isDig
          if ed = [] ∨ esgn.2.drop ed.length ≠ [] then none
          else some (sgn.1 * mant * (10 : ℚ) ^ (esgn.1 * (digitsVal ed : ℤ)))
        else none

/-- Python `html.unescape`, restricted to the five entities that occur in
the inputs considered here (`&lt; &gt; &amp; &quot; &#39;`); all other text
is passed through unchanged. -/
def unescapeGo : Nat → Str → Str
  | 0, s => s
  | fuel + 1, s =>
    if (strL "&lt;").isPrefixOf s then '<' :: unescapeGo fuel (s.drop 4)
    else if (strL "&gt;").isPrefixOf s then '>' :: unescapeGo fuel (s.drop 4)
    else if (strL "&quot;").isPrefixOf s then '"' :: unescapeGo fuel (s.drop 6)
    else if (strL "&#39;").isPrefixOf s then '\'' :: unescapeGo fuel (s.drop 5)
    else if (strL "&amp;").isPrefixOf s then '&' :: unescapeGo fuel (s.drop 5)
    else
      match s with
      | [] => []
      | c :: t => c :: unescapeGo fuel t

def unescapeHtml (s : Str) : Str := unescapeGo s.length s

/-- Split at the first occurrence of `pat` (nonempty): returns the text
after the occurrence, or `none` when `pat` does not occur. -/
def afterFirstGo (pat : Str) : Nat → Str → Option Str
  | 0, _ => none
  | fuel + 1, s =>
    if pat.isPrefixOf s then some (s.drop pat.length)
    else
      match s with
      | [] => none
      | _ :: t => afterFirstGo pat fuel t

def afterFirst (pat s : Str) : Option Str := afterFirstGo pat s.length s

/-- The text strictly before the first occurrence of `pat`, when it occurs. -/
def beforeFirstGo (pat : Str) : Nat → Str → Option Str
  | 0, _ => none
  | fuel + 1, s =>
    if pat.isPrefixOf s then some []
    else
      match s with
      | [] => none
      | c :: t => (beforeFirstGo pat fuel t).map (c :: ·)

def beforeFirst (pat s : Str) : Option Str := beforeFirstGo pat s.length s

/-- Python's `pat in s` substring test. -/
def containsSeq (pat s : Str) : Bool := (afterFirst pat s).isSome

/-! ## heavens_above.py : `parse_summary2table` and its internal helpers -/

/-- Embeds the row-marker regex `<tr\s+class="clickableRow"` applied at the
start of `s`: literal `<tr`, one or more whitespace characters, then the
literal `class="clickableRow"`.  Returns the remainder after the marker. -/
def matchTrOpen (s : Str) : Option Str :=
  if (strL "<tr").isPrefixOf s then
    let t := s.drop 3
    let w := t.takeWhile isPyWs
    if w = [] then none
    else
      let t2 := t.drop w.length
      if (strL "class=\"clickableRow\"").isPrefixOf t2 then
        some (t2.drop 21)
      else none
  else none

/-- Embeds `re.findall(r'<tr\s+class="clickableRow".*?</tr>', query_result,
flags=re.DOTALL)`: leftmost, non-overlapping matches; the lazy `.*?` under
DOTALL extends each match to the earliest following `</tr>`. -/
def findTrRowsGo : Nat → Str → List Str
  | 0, _ => []
  | fuel + 1, s =>
    match matchTrOpen s with
    | some rest =>
      match afterFirst (strL "</tr>") rest with
      | some after => s.take (s.length - after.length) :: findTrRowsGo fuel after
      | none => []
    | none =>
      match s with
      | [] => []
      | _ :: t => findTrRowsGo fuel t

def findTrRows (s : Str) : List Str := findTrRowsGo s.length s

/-- Embeds one attempted match of `<td[^>]*>(.*?)</td>` at the start of
`s` (DOTALL): literal `<td`, a maximal run of non-`>` characters, a `>`,
then the lazy capture up to the earliest `</td>`.  Returns the capture and
the remainder after the whole match. -/
def matchTdAt (s : Str) : Option (Str × Str) :=
  if (strL "<td").isPrefixOf s then
    let t := s.drop 3
    let attrs := t.takeWhile (· ≠ '>')
    match t.drop attrs.length with
    | '>' :: body =>
      match beforeFirst (strL "</td>") body, afterFirst (strL "</td>") body with
      | some cap, some after => some (cap, after)
      | _, _ => none
    | _ => none
  else none

/-- Embeds `re.findall(r"<td[^>]*>(.*?)</td>", tr_html, flags=re.DOTALL)`
(the capture groups, leftmost and non-overlapping). -/
def findTdsGo : Nat → Str → List Str
  | 0, _ => []
  | fuel + 1, s =>
    match matchTdAt s with
    | some (cap, after) => cap :: findTdsGo fuel after
    | none =>
      match s with
      | [] => []
      | _ :: t => findTdsGo fuel t

def findTds (s : Str) : List Str := findTdsGo s.length s

/-- Embeds `re.sub(r"<.*?>", "", s)` followed by `.strip()` (the source's
`_strip_tags`).  Without DOTALL the `.` does not match a newline, so a `<`
with no `>` before the next newline is kept as literal text. -/
def stripTagsGo : Nat → Str → Str
  | 0, s => s
  | fuel + 1, s =>
    match s with
    | [] => []
    | '<' :: t =>
      let run := t.takeWhile (fun c => c ≠ '>' ∧ c ≠ '\n')
      match t.drop run.length with
      | '>' :: rest => stripTagsGo fuel rest
      | _ => '<' :: stripTagsGo fuel t
    | c :: t => c :: stripTagsGo fuel t

def stripTags (s : Str) : Str := pyStrip (stripTagsGo s.length s)

/-- The source's `_strip_deg`: `float(s.replace("Â°", "").strip())`.  The
replaced pattern is the two-character mojibake sequence U+00C2 U+00B0, not
the bare degree sign.  A failed conversion is an uncaught `ValueError`. -/
def stripDeg (s : Str) : Except PErr ℚ :=
  match pyFloat (pyStrip (removeSeq (strL "Â°") s)) with
  | some q => .ok q
  | none => .error .valueError

/-- Capture for `([^"]*passdetails\.aspx[^"]*)"` (and the `'`-quoted
variant): the maximal quote-free run, accepted when the closing quote
exists and the run contains `passdetails.aspx`. -/
def captureQuoted (q : Char) (u : Str) : Option Str :=
  let v := u.takeWhile (· ≠ q)
  match u.drop v.length with
  | c :: _ =>
    if c = q ∧ containsSeq (strL "passdetails.aspx") v then some v else none
  | [] => none

/-- Greedy backtracking over the `[^>]+` of
`<a[^>]+href="([^"]*passdetails\.aspx[^"]*)"`: `t` is the text after
`<a`; `k` counts down from the longest candidate run, as a backtracking
regex engine does. -/
def hrefTryK (t : Str) : Nat → Option Str
  | 0 => none
  | k + 1 =>
    (if (t.take (k + 1)).all (· ≠ '>') ∧ (strL "href=\"").isPrefixOf (t.drop (k + 1)) then
      captureQuoted '"' (t.drop (k + 1 + 6))
    else none).orElse fun _ => hrefTryK t k

/-- One attempted match of the `<a ... href="..."` pattern at the start of
`s`. -/
def matchHrefAt (s : Str) : Option Str :=
  if (strL "<a").isPrefixOf s then hrefTryK (s.drop 2) (s.length - 2)
  else none

/-- `re.search`: leftmost position at which the `<a ... href` pattern
matches. -/
def searchHrefGo : Nat → Str → Option Str
  | 0, _ => none
  | fuel + 1, s =>
    (matchHrefAt s).orElse fun _ =>
      match s with
      | [] => none
      | _ :: t => searchHrefGo fuel t

def searchHref (s : Str) : Option Str := searchHrefGo s.length s

/-- One attempted match of
`window\.location\s*=\s*'([^']*passdetails\.aspx[^']*)'` at the start of
`s`. -/
def matchLocAt (s : Str) : Option Str :=
  if (strL "window.location").isPrefixOf s then
    let t := s.drop 15
    let t1 := t.drop (t.takeWhile isPyWs).length
    match t1 with
    | '=' :: t2 =>
      let t3 := t2.drop (t2.takeWhile isPyWs).length
      match t3 with
      | '\'' :: u => captureQuoted '\'' u
      | _ => none
    | _ => none
  else none

def searchLocGo : Nat → Str → Option Str
  | 0, _ => none
  | fuel + 1, s =>
    (matchLocAt s).orElse fun _ =>
      match s with
      | [] => none
      | _ :: t => searchLocGo fuel t

def searchLoc (s : Str) : Option Str := searchLocGo s.length s

/-- The source's `_extract_passdetails_url`: try the anchor-`href` pattern,
then the `window.location` pattern; the matched group is HTML-unescaped;
with no match the result is the empty string. -/
def extractPassdetailsUrl (tr_html : Str) : Str :=
  match searchHref tr_html with
  | some m => unescapeHtml m
  | none =>
    match searchLoc tr_html with
    | some m => unescapeHtml m
    | none => []

/-- `urlparse(url).query`: the text after the first `?`, with any
`#`-fragment removed first; empty when there is no `?`. -/
def urlQuery (url : Str) : Str :=
  let noFrag := match beforeFirst (strL "#") url with
    | some b => b
    | none => url
  match afterFirst (strL "?") noFrag with
  | some q => q
  | none => []

/-- Split on every occurrence of the one-character separator. -/
def splitOnCharGo (sep : Char) : Nat → Str → Str → List Str
  | 0, acc, _ => [acc.reverse]
  | fuel + 1, acc, s =>
    match s with
    | [] => [acc.reverse]
    | c :: t =>
      if c = sep then acc.reverse :: splitOnCharGo sep fuel [] t
      else splitOnCharGo sep fuel (c :: acc) t

def splitOnChar (sep : Char) (s : Str) : List Str := splitOnCharGo sep s.length [] s

/-- `urllib.parse.parse_qs` restricted as this program uses it: split the
query on `&`, split each piece at its first `=`, and keep only pairs with a
nonempty value (`keep_blank_values` is false).  Percent-decoding and `+`
decoding are not modelled; the queries handled here contain neither. -/
def parseQs (q : Str) : List (Str × Str) :=
  (splitOnChar '&' q).filterMap fun piece =>
    match beforeFirst (strL "=") piece, afterFirst (strL "=") piece with
    | some k, some v => if v = [] then none else some (k, v)
    | _, _ => none

/-- The source's `_qs_get_first(qs, key, None)`: the first value listed for
`key` (`parse_qs` keeps values of a repeated key in order). -/
def qsGetFirst (qs : List (Str × Str)) (key : Str) : Option Str :=
  (qs.find? fun p => p.1 = key).map Prod.snd

/-- Two-digit field of an ISO time. -/
def twoDig (a b : Char) : Option ℕ :=
  if isDig a ∧ isDig b then some (10 * digVal a + digVal b) else none

/-- Embeds astropy's parsing of the time-of-day part of an ISOT string
`"YYYY-MM-DDT" + txt` (`Time(...)` with the `isot` subformats
`date_hms`/`date_hm`): `HH:MM:SS`, optionally with a fractional-second
tail, or `HH:MM`; out-of-range fields are rejected.  Returns the
time-of-day in seconds. -/
def parseIsotTod (txt : Str) : Option ℚ :=
  match txt with
  | [h1, h2, ':', m1, m2] => do
    let hh ← twoDig h1 h2
    let mm ← twoDig m1 m2
    if hh ≤ 23 ∧ mm ≤ 59 then some ((3600 * hh + 60 * mm : ℕ) : ℚ) else none
  | h1 :: h2 :: ':' :: m1 :: m2 :: ':' :: s1 :: s2 :: rest => do
    let hh ← twoDig h1 h2
    let mm ← twoDig m1 m2
    let ss ← twoDig s1 s2
    let frac : Option ℚ ←
      match rest with
      | [] => some (some 0)
      | '.' :: ds =>
        if ds ≠ [] ∧ ds.all isDig then
          some (some ((digitsVal ds : ℚ) / (10 : ℚ) ^ ds.length))
        else none
      | _ => none
    if hh ≤ 23 ∧ mm ≤ 59 ∧ ss ≤ 59 then
      some ((3600 * hh + 60 * mm + ss : ℕ) + frac.getD 0)
    else none
  | _ => none

/-- A Python float that is either a finite (exact rational) value or
`float("nan")`. -/
inductive FloatV where
  | real (q : ℚ)
  | nan
deriving DecidableEq, Repr

/-- Python `int(x)` on a float: truncation toward zero. -/
def truncQ (q : ℚ) : ℤ := q.num / (q.den : ℤ)

/-- `Time(mjd_f, format="mjd", scale="utc").isot[:11]` yields the calendar
date of the instant, i.e. day number `⌊mjd⌋`; on a NaN day-fraction the
ISOT formatting fails inside ERFA (no valid date exists), modelled as an
error.  (Calendar-range limits for extreme day counts are not modelled.) -/
def isotDateDays : FloatV → Except PErr ℤ
  | .real q => .ok ⌊q⌋
  | .nan => .error .erfaError

/-- One row of the parsed pass table (`cols` of `parse_summary2table`).
Timestamps are UTC instants in whole seconds since the MJD epoch — the
table stores `isot[0:19]` strings, i.e. the instant truncated to the
second, and comparison/slicing of those canonical strings agrees with
comparison/arithmetic on the instants. -/
structure Record where
  satid : ℤ
  satname : Str
  mag : Option ℚ
  duration : ℤ
  start_utc : ℤ
  start_alt : ℚ
  start_az : Str
  max_utc : ℤ
  max_alt : ℚ
  max_az : Str
  end_utc : ℤ
  end_alt : ℚ
  end_az : Str
  visible : Bool
  detail_url : Str
  mjd : FloatV
deriving DecidableEq, Repr

/-- `int(satid) if satid is not None else -1` (source line 227). -/
def satidOrNeg1 : Option Str → Except PErr ℤ
  | none => .ok (-1)
  | some s =>
    match pyInt s with
    | some z => .ok z
    | none => .error .valueError

/-- `float(mjd) if mjd is not None else float("nan")` (source line 228). -/
def mjdOrNan : Option Str → Except PErr FloatV
  | none => .ok FloatV.nan
  | some s =>
    match pyFloat s with
    | some q => .ok (FloatV.real q)
    | none => .error .valueError

/-- `Time("YYYY-MM-DDT" + txt)`: the time-of-day parse, raising
`ValueError` on an unparseable time string. -/
def todE (txt : Str) : Except PErr ℚ :=
  match parseIsotTod txt with
  | some q => .ok q
  | none => .error .valueError

/-- The per-row body of `parse_summary2table`'s loop, after the cells have
been extracted: returns `none` for a defensively skipped row (fewer than 12
cells) and propagates any uncaught exception through the `Except` binds.
The order of the fallible steps is the source's: the three `_strip_deg`
elevation conversions (lines 203, 207, 211), then the `satid`/`mjd` query
conversions (lines 227-228), then the three `Time(...)` constructions for
peak, start and end (lines 230-237). -/
def processCells (satname url : Str) (tds : List Str) : Except PErr (Option Record) :=
  if tds.length < 12 then .ok none else
  let brightness := pyFloat (tds.getD 1 [])
  (stripDeg (tds.getD 3 [])).bind fun start_alt =>
  (stripDeg (tds.getD 6 [])).bind fun max_alt =>
  (stripDeg (tds.getD 9 [])).bind fun end_alt =>
  let pass_type := tds.getD 11 [] = strL "visible"
  let qs := if url ≠ [] then parseQs (urlQuery url) else []
  (satidOrNeg1 (qsGetFirst qs (strL "satid"))).bind fun satid_i =>
  (mjdOrNan (qsGetFirst qs (strL "mjd"))).bind fun mjd_f =>
  (isotDateDays mjd_f).bind fun dd =>
  (todE (tds.getD 5 [])).bind fun maxTod =>
  (todE (tds.getD 2 [])).bind fun startTod =>
  (todE (tds.getD 8 [])).bind fun endTod =>
  let max_t : ℚ := ((dd * 86400 : ℤ) : ℚ) + maxTod
  let start_t : ℚ := ((dd * 86400 : ℤ) : ℚ) + startTod
  let end_t : ℚ := ((dd * 86400 : ℤ) : ℚ) + endTod
  let duration : ℤ := truncQ (end_t - start_t)
  -- Source lines 245-248 read
  --   if start_time_obj > max_time_obj:
  --       start_time_obj - TimeDelta(1 * u.day)
  --   if end_time_obj < max_time_obj:
  --       end_time_obj + TimeDelta(1 * u.day)
  -- the shifted instants are computed but never assigned back, so the
  -- emitted state is unchanged; the embedding therefore carries the
  -- unshifted instants forward.
  .ok (some
    { satid := satid_i, satname := satname, mag := brightness,
      duration := duration,
      start_utc := ⌊start_t⌋, start_alt := start_alt, start_az := tds.getD 4 [],
      max_utc := ⌊max_t⌋, max_alt := max_alt, max_az := tds.getD 7 [],
      end_utc := ⌊end_t⌋, end_alt := end_alt, end_az := tds.getD 10 [],
      visible := pass_type, detail_url := url, mjd := mjd_f })

/-- The cell texts of one `<tr>` row: `[_strip_tags(x) for x in tds]`. -/
def extractCellsText (tr_html : Str) : List Str := (findTds tr_html).map stripTags

/-- One iteration of `parse_summary2table`'s row loop. -/
def processRow (satname tr_html : Str) : Except PErr (Option Record) :=
  processCells satname (extractPassdetailsUrl tr_html) (extractCellsText tr_html)

/-- The row loop: rows are processed in page order; a skipped row
contributes nothing; an uncaught exception aborts the whole call. -/
def parseRows (satname : Str) : List Str → Except PErr (List Record)
  | [] => .ok []
  | tr :: trs =>
    match processRow satname tr with
    | .error e => .error e
    | .ok o =>
      match parseRows satname trs with
      | .error e => .error e
      | .ok rest => .ok (match o with
        | some r => r :: rest
        | none => rest)

/-- `parse_summary2table(query_result, satname)`: the typed pass table, in
page row order. -/
def parseSummary2table (query_result satname : Str) : Except PErr (List Record) :=
  parseRows satname (findTrRows query_result)

/-! ## SSDL-SatPass-Notification.py : weather join (lines 256-283) -/

/-- One hourly forecast row of `weather_table`; `time` is the sample
instant in seconds (the `time` column holds top-of-hour timestamps). -/
structure WSample where
  time : ℤ
  totalcloudcover : ℚ
  highclouds : ℚ
  midclouds : ℚ
  lowclouds : ℚ
  temperature : ℚ
  windspeed : ℚ
  pictocode : ℤ
deriving DecidableEq, Repr

instance : Inhabited WSample := ⟨⟨0, 0, 0, 0, 0, 0, 0, 0⟩⟩

/-- A weather column entry of the enriched table: a numeric value or the
literal placeholder string `"N/A"`. -/
inductive Cell where
  | num (q : ℚ)
  | na
deriving DecidableEq, Repr

/-- A pictogram-code column entry (integer-valued when present). -/
inductive CellZ where
  | num (z : ℤ)
  | na
deriving DecidableEq, Repr

/-- A pass-table row after the weather columns are attached. -/
structure ERow where
  pass_rec : Record
  totalcloudcover : Cell
  highclouds : Cell
  midclouds : Cell
  lowclouds : Cell
  temperature : Cell
  windspeed : Cell
  pictocode : CellZ
deriving DecidableEq, Repr

/-- `row["start_utc"][0:13] + ":00:00"`: the ISO timestamp truncated to the
top of its clock hour, as an instant. -/
def hourKey (t : ℤ) : ℤ := 3600 * Int.fdiv t 3600

/-- The indices of `np.where(weather_table["time"] == key)` (ascending). -/
def matchIdxs (key : ℤ) : List WSample → Nat → List Nat
  | [], _ => []
  | w :: ws, i =>
    if w.time = key then i :: matchIdxs key ws (i + 1) else matchIdxs key ws (i + 1)

/-- One iteration of the weather-join loop (source lines 256-274).
`np.where` returns a 1-tuple holding the index array, so the source's
`len(idxs) > 0` tests the tuple's length — which is always 1 — and the
`"N/A"` branch is unreachable; on an empty index array `idxs[0][0]` raises
`IndexError`. -/
def weatherJoinRow (ws : List WSample) (r : Record) : Except PErr ERow :=
  let idxs : List (List Nat) := [matchIdxs (hourKey r.start_utc) ws 0]
  if idxs.length > 0 then
    match idxs.getD 0 [] with
    | [] => .error .indexError
    | i :: _ =>
      let w := ws.getD i default
      .ok ⟨r, .num w.totalcloudcover, .num w.highclouds, .num w.midclouds,
           .num w.lowclouds, .num w.temperature, .num w.windspeed, .num w.pictocode⟩
  else
    .ok ⟨r, .na, .na, .na, .na, .na, .na, .na⟩

/-- The weather-join loop over the whole pass table. -/
def weatherJoin (ws : List WSample) : List Record → Except PErr (List ERow)
  | [] => .ok []
  | r :: rs =>
    match weatherJoinRow ws r with
    | .error e => .error e
    | .ok er =>
      match weatherJoin ws rs with
      | .error e => .error e
      | .ok rest => .ok (er :: rest)

/-! ## SSDL-SatPass-Notification.py : "good pass" selection -/

/-- The columns the three selection sites read. -/
structure FRow where
  max_alt : ℚ
  duration : ℤ
  visible : Bool
  time_window : Str
deriving DecidableEq, Repr

/-- `time_window == "evening" or time_window == "morning"` on the
environment-supplied selector (`None` when the variable is unset). -/
def isWindowed (tw : Option Str) : Bool :=
  tw = some (strL "evening") || tw = some (strL "morning")

/-- The ICS selection (source lines 480-483): configured thresholds,
inclusive on altitude, strict on duration. -/
def icsGoodFilter (min_alt : ℚ) (min_duration : ℤ) (tw : Option Str) (r : FRow) : Bool :=
  if isWindowed tw then
    decide (r.max_alt ≥ min_alt) && decide (r.duration > min_duration) && r.visible
      && decide (some r.time_window = tw)
  else
    decide (r.max_alt ≥ min_alt) && decide (r.duration > min_duration) && r.visible

/-- The "bydate" notification selection (source lines 571-574). -/
def bydateGoodFilter (min_alt : ℚ) (min_duration : ℤ) (tw : Option Str) (r : FRow) : Bool :=
  if isWindowed tw then
    decide (r.max_alt ≥ min_alt) && decide (r.duration > min_duration) && r.visible
      && decide (some r.time_window = tw)
  else
    decide (r.max_alt ≥ min_alt) && decide (r.duration > min_duration) && r.visible

/-- The "bysat" notification `good_condition` (source lines 524-527):
hard-coded thresholds 30 and 120 with a strict altitude comparison; the
configured `min_alt`/`min_duration` are not consulted. -/
def bysatGoodCondition (_min_alt : ℚ) (_min_duration : ℤ) (tw : Option Str) (r : FRow) : Bool :=
  if isWindowed tw then
    decide (r.max_alt > 30) && decide (r.duration > 120) && r.visible
      && decide (some r.time_window = tw)
  else
    decide (r.max_alt > 30) && decide (r.duration > 120) && r.visible

/-! ## Numeric and timestamp formatting helpers -/

/-- Decimal digit character. -/
def digChar (n : ℕ) : Char := Char.ofNat ('0'.toNat + n)

/-- Decimal digits of a natural number, most significant first. -/
def natDigitsGo : Nat → Nat → Str
  | 0, _ => []
  | fuel + 1, n =>
    if n < 10 then [digChar n]
    else natDigitsGo fuel (n / 10) ++ [digChar (n % 10)]

def natDigits (n : ℕ) : Str := natDigitsGo (n + 1) n

/-- Python `str(z)` / `f"{z}"` on an `int`. -/
def intStr (z : ℤ) : Str :=
  if z < 0 then '-' :: natDigits z.natAbs else natDigits z.natAbs

/-- Round to the nearest integer, ties to even — the rounding of Python's
fixed-point float formatting (applied here to the exact value). -/
def rhe (x : ℚ) : ℤ :=
  let f := ⌊x⌋
  if x - f < 1/2 then f
  else if x - f > 1/2 then f + 1
  else if f % 2 = 0 then f else f + 1

/-- Left-pad with a character to the given width. -/
def padLeftC (c : Char) (w : ℕ) (s : Str) : Str :=
  List.replicate (w - s.length) c ++ s

/-- Python `f"{x:.{nd}f}"` on the exact value `q`: fixed-point rendering
with `nd` decimals, rounding half-to-even, no decimal point when
`nd = 0`.  (The double rounding decimal-from-binary of a machine float is
not modelled; the values formatted here are exact decimals.) -/
def fmtFix (nd : ℕ) (q : ℚ) : Str :=
  let t : ℕ := (rhe (|q| * (10 : ℚ) ^ nd)).toNat
  let sign : Str := if q < 0 then ['-'] else []
  if nd = 0 then sign ++ natDigits (t / 10 ^ nd)
  else sign ++ natDigits (t / 10 ^ nd) ++ ['.'] ++ padLeftC '0' nd (natDigits (t % 10 ^ nd))

/-- Python `f"{x:.1f}"` on a float value that may be `nan` (formats as
`"nan"`). -/
def fmt1fFloat : FloatV → Str
  | .real q => fmtFix 1 q
  | .nan => strL "nan"

/-- The calendar event identifier of source line 445:
`f"{satid}.{row['mjd']:.1f}@SatPass"`. -/
def uidOfRecord (r : Record) : Str :=
  intStr r.satid ++ ['.'] ++ fmt1fFloat r.mjd ++ strL "@SatPass"

/-- Shortest-decimal rendering of an exact decimal value, with Python's
`repr`-style `".0"` on integral floats; used only inside display text (the
shortest-roundtrip repr of a binary double is modelled as the shortest
exact decimal of the value, which agrees on the decimal data handled
here). -/
def decReprGo (q : ℚ) : Nat → Nat → Option Str
  | 0, _ => none
  | fuel + 1, k =>
    if (q * (10 : ℚ) ^ k).den = 1 then
      let t := (q * (10 : ℚ) ^ k).num.natAbs
      let sign : Str := if q < 0 then ['-'] else []
      if k = 0 then some (sign ++ natDigits t ++ strL ".0")
      else some (sign ++ natDigits (t / 10 ^ k) ++ ['.'] ++ padLeftC '0' k (natDigits (t % 10 ^ k)))
    else decReprGo q fuel (k + 1)

def decRepr (q : ℚ) : Str := (decReprGo q 30 0).getD (strL "?")

/-- `f"{row['mag']}"`: Python prints `None` for a missing magnitude. -/
def magRepr : Option ℚ → Str
  | none => strL "None"
  | some q => decRepr q

/-- `f"{cell}"` on a weather column entry: the `"N/A"` placeholder prints
itself; the numeric entries reaching this are the integer-valued JSON
cloud covers, printed as integers. -/
def cellStr : Cell → Str
  | .na => strL "N/A"
  | .num q => if q.den = 1 then intStr q.num else decRepr q

/-- `f"{cell:.0f}"` on a weather column entry: formatting the `"N/A"`
string with a float format raises `ValueError`. -/
def fmtCell0 : Cell → Except PErr Str
  | .num q => .ok (fmtFix 0 q)
  | .na => .error .valueError

/-- `f"{cell:.1f}"` on a weather column entry. -/
def fmtCell1 : Cell → Except PErr Str
  | .num q => .ok (fmtFix 1 q)
  | .na => .error .valueError

/-- Civil date from days since 1970-01-01 (proleptic Gregorian). -/
def civilFromDays (z0 : ℤ) : ℤ × ℕ × ℕ :=
  let z := z0 + 719468
  let era := Int.fdiv z 146097
  let doe := (z - era * 146097).toNat
  let yoe := (doe - doe / 1460 + doe / 36524 - doe / 146096) / 365
  let doy := doe - (365 * yoe + yoe / 4 - yoe / 100)
  let mp := (5 * doy + 2) / 153
  let d := doy - (153 * mp + 2) / 5 + 1
  let m := if mp < 10 then mp + 3 else mp - 9
  ((yoe : ℤ) + era * 400 + (if m ≤ 2 then 1 else 0), m, d)

/-- `isot[0:10]` of an instant's calendar day (day count since the MJD
epoch 1858-11-17). -/
def dateStr (mjdDay : ℤ) : Str :=
  let c := civilFromDays (mjdDay - 40587)
  padLeftC '0' 4 (intStr c.1) ++ ['-'] ++ padLeftC '0' 2 (natDigits c.2.1)
    ++ ['-'] ++ padLeftC '0' 2 (natDigits c.2.2)

/-- `isot[11:19]` of an instant: the time of day `HH:MM:SS`. -/
def todStr (sec : ℤ) : Str :=
  let s := sec.toNat
  padLeftC '0' 2 (natDigits (s / 3600)) ++ [':'] ++ padLeftC '0' 2 (natDigits (s / 60 % 60))
    ++ [':'] ++ padLeftC '0' 2 (natDigits (s % 60))

/-- `isot[0:19]` of an instant in seconds since the MJD epoch. -/
def isotStr (t : ℤ) : Str :=
  dateStr (Int.fdiv t 86400) ++ ['T'] ++ todStr (Int.fmod t 86400)

/-- `strftime("%Y%m%dT%H%M%S")` (the source's `_ics_lst_dt`). -/
def icsDtLocal (t : ℤ) : Str :=
  let c := civilFromDays (Int.fdiv t 86400 - 40587)
  let s := (Int.fmod t 86400).toNat
  padLeftC '0' 4 (intStr c.1) ++ padLeftC '0' 2 (natDigits c.2.1)
    ++ padLeftC '0' 2 (natDigits c.2.2) ++ ['T'] ++ padLeftC '0' 2 (natDigits (s / 3600))
    ++ padLeftC '0' 2 (natDigits (s / 60 % 60)) ++ padLeftC '0' 2 (natDigits (s % 60))

/-- `strftime("%Y%m%dT%H%M%SZ")` in UTC (the source's `_ics_dt`). -/
def icsDtUtc (t : ℤ) : Str := icsDtLocal t ++ ['Z']

/-- `datetime.weekday()` of an instant (Monday = 0); day 0 of the MJD
epoch was a Wednesday. -/
def weekdayIdx (t : ℤ) : ℕ := ((Int.fdiv t 86400 + 2) % 7).toNat

/-- `WEEKDAY_JP` (source line 39). -/
def WEEKDAY_JP : List Str :=
  [strL "月", strL "火", strL "水", strL "木", strL "金", strL "土", strL "日"]

/-- Python `str.ljust`. -/
def ljust (w : ℕ) (s : Str) : Str := s ++ List.replicate (w - s.length) ' '

/-- Python `str.rjust`. -/
def rjust (w : ℕ) (s : Str) : Str := List.replicate (w - s.length) ' ' ++ s

/-! ## iCalendar helpers (`_fold_ics_line`, `_ics_escape`) -/

/-- Python `str.replace(pat, repl)` with a nonempty pattern. -/
def replaceSeqGo (pat repl : Str) : Nat → Str → Str
  | 0, s => s
  | fuel + 1, s =>
    if pat.isPrefixOf s then repl ++ replaceSeqGo pat repl fuel (s.drop pat.length)
    else
      match s with
      | [] => []
      | c :: t => c :: replaceSeqGo pat repl fuel t

def replaceSeq (pat repl s : Str) : Str := replaceSeqGo pat repl s.length s

/-- The source's `_ics_escape`, with its replacement order. -/
def icsEscape (s : Str) : Str :=
  replaceSeq (strL "\n") (strL "\\n")
    (replaceSeq (strL "\r\n") (strL "\\n")
      (replaceSeq (strL ",") (strL "\\,")
        (replaceSeq (strL ";") (strL "\\;")
          (replaceSeq (strL "\\") (strL "\\\\") s))))

/-- The source's `_ics_escape_uri`. -/
def icsEscapeUri (s : Str) : Str := replaceSeq (strL "\\") (strL "\\\\") s

/-- The segments accumulated by `_fold_ics_line`'s `while` loop (the `out`
list, plus the final remnant), at the default limit 75.  Each loop step
moves 74 characters of content, so `line.length` steps of fuel always
suffice. -/
def foldGo : Nat → Str → List Str
  | 0, line => [line]
  | fuel + 1, line =>
    if line.length ≤ 75 then [line]
    else line.take 75 :: foldGo fuel (' ' :: line.drop 75)

def foldSegments (line : Str) : List Str := foldGo line.length line

def crlf : Str := ['\r', '\n']

/-- The source's `_fold_ics_line(line)` (default limit 75): a short line is
returned unchanged, a long one becomes its segments joined by CRLF. -/
def foldIcsLine (line : Str) : Str :=
  if line.length ≤ 75 then line else List.intercalate crlf (foldSegments line)

/-- Removing the folding again: keep the first segment, drop the one
leading space of every later segment, concatenate. -/
def unfoldSegs : List Str → Str
  | [] => []
  | s :: rest => s ++ (rest.map (List.drop 1)).flatten

/-! ## Notification row rendering (Slack "bysat" and "bydate" tables) -/

/-- The weather columns of one notification table row (source lines
546-551, repeated verbatim at 612-617): a missed join renders the explicit
`"N/A"` placeholder for both descriptions; a hit renders the cloud triple
and the wind speed (whose `:.1f` formatting would raise on a placeholder). -/
def cloudWindDesc (row : ERow) : Except PErr (Str × Str) :=
  if row.totalcloudcover = Cell.na then .ok (strL "N/A", strL "N/A")
  else
    match fmtCell1 row.windspeed with
    | .error e => .error e
    | .ok w =>
      .ok (rjust 3 (cellStr row.lowclouds) ++ ['|'] ++ rjust 3 (cellStr row.midclouds)
             ++ ['|'] ++ rjust 3 (cellStr row.highclouds),
           w ++ strL " mps")

/-- One data row of the "bysat" notification table (source lines 537-560). -/
def renderBysatRow (lstH lstM : ℤ) (row : ERow) : Except PErr Str :=
  let off := lstH * 3600 + lstM * 60
  let start_lst := row.pass_rec.start_utc + off
  let start_lst_weekday := WEEKDAY_JP.getD (weekdayIdx start_lst) []
  let start_lst_date := dateStr (Int.fdiv start_lst 86400)
  let start_lst_time := todStr (Int.fmod start_lst 86400)
  let max_lst_time := todStr (Int.fmod (row.pass_rec.max_utc + off) 86400)
  let end_lst_time := todStr (Int.fmod (row.pass_rec.end_utc + off) 86400)
  match cloudWindDesc row with
  | .error e => .error e
  | .ok cw =>
    .ok (start_lst_date ++ [' '] ++ start_lst_weekday ++ strL "曜日 "
      ++ ljust 19 (start_lst_time ++ strL " (" ++ fmtFix 0 row.pass_rec.start_alt
           ++ strL "° " ++ row.pass_rec.start_az ++ [')'])
      ++ ljust 19 (max_lst_time ++ strL " (" ++ fmtFix 0 row.pass_rec.max_alt
           ++ strL "° " ++ row.pass_rec.max_az ++ [')'])
      ++ ljust 19 (end_lst_time ++ strL " (" ++ fmtFix 0 row.pass_rec.end_alt
           ++ strL "° " ++ row.pass_rec.end_az ++ [')'])
      ++ ljust 12 cw.1 ++ cw.2)

/-- One data row of the "bydate" notification table (source lines
603-626); it differs from the "bysat" row only in its first column. -/
def renderBydateRow (lstH lstM : ℤ) (row : ERow) : Except PErr Str :=
  let off := lstH * 3600 + lstM * 60
  let start_lst := row.pass_rec.start_utc + off
  let start_lst_time := todStr (Int.fmod start_lst 86400)
  let max_lst_time := todStr (Int.fmod (row.pass_rec.max_utc + off) 86400)
  let end_lst_time := todStr (Int.fmod (row.pass_rec.end_utc + off) 86400)
  match cloudWindDesc row with
  | .error e => .error e
  | .ok cw =>
    .ok (ljust 21 row.pass_rec.satname
      ++ ljust 19 (start_lst_time ++ strL " (" ++ fmtFix 0 row.pass_rec.start_alt
           ++ strL "° " ++ row.pass_rec.start_az ++ [')'])
      ++ ljust 19 (max_lst_time ++ strL " (" ++ fmtFix 0 row.pass_rec.max_alt
           ++ strL "° " ++ row.pass_rec.max_az ++ [')'])
      ++ ljust 19 (end_lst_time ++ strL " (" ++ fmtFix 0 row.pass_rec.end_alt
           ++ strL "° " ++ row.pass_rec.end_az ++ [')'])
      ++ ljust 12 cw.1 ++ cw.2)

/-! ## `write_passes_to_ics` : per-event rendering -/

/-- `pictocode_hourly` (source lines 290-328), restricted to the fields the
embedded rendering paths read: code ↦ (`"en"` description, `"emoji"`).
A lookup outside the table is a `KeyError`. -/
def pictocodeHourly (z : ℤ) : Option (Str × Str) :=
  if z = 1 then some (strL "Clear, cloudless sky", strL "☀️")
  else if z = 2 then some (strL "Clear, few cirrus", strL "☀️")
  else if z = 3 then some (strL "Clear with cirrus", strL "☀️")
  else if z = 4 then some (strL "Clear with few low clouds", strL "🌤️")
  else if z = 5 then some (strL "Clear with few low clouds and few cirrus", strL "🌤️")
  else if z = 6 then some (strL "Clear with few low clouds and cirrus", strL "🌤️")
  else if z = 7 then some (strL "Partly cloudy", strL "⛅")
  else if z = 8 then some (strL "Partly cloudy and few cirrus", strL "⛅")
  else if z = 9 then some (strL "Partly cloudy and cirrus", strL "⛅")
  else if z = 10 then some (strL "Mixed with some thunderstorm clouds possible", strL "🌦️")
  else if z = 11 then some (strL "Mixed with few cirrus with some thunderstorm clouds possible", strL "🌦️")
  else if z = 12 then some (strL "Mixed with cirrus with some thunderstorm clouds possible", strL "🌦️")
  else if z = 13 then some (strL "Clear but hazy", strL "🌫️")
  else if z = 14 then some (strL "Clear but hazy with few cirrus", strL "🌫️")
  else if z = 15 then some (strL "Clear but hazy with cirrus", strL "🌫️")
  else if z = 16 then some (strL "Fog/low stratus clouds", strL "🌫️")
  else if z = 17 then some (strL "Fog/low stratus clouds with few cirrus", strL "🌫️")
  else if z = 18 then some (strL "Fog/low stratus clouds with cirrus", strL "🌫️")
  else if z = 19 then some (strL "Mostly cloudy", strL "☁️")
  else if z = 20 then some (strL "Mostly cloudy and few cirrus", strL "☁️")
  else if z = 21 then some (strL "Mostly cloudy and cirrus", strL "☁️")
  else if z = 22 then some (strL "Overcast", strL "☁️")
  else if z = 23 then some (strL "Overcast with rain", strL "🌧️")
  else if z = 24 then some (strL "Overcast with snow", strL "🌨️")
  else if z = 25 then some (strL "Overcast with heavy rain", strL "🌧️🌧️")
  else if z = 26 then some (strL "Overcast with heavy snow", strL "❄️")
  else if z = 27 then some (strL "Rain, thunderstorms likely", strL "⛈️")
  else if z = 28 then some (strL "Light rain, thunderstorms likely", strL "🌦️⛈️")
  else if z = 29 then some (strL "Storm with heavy snow", strL "🌨️🌪️")
  else if z = 30 then some (strL "Heavy rain, thunderstorms likely", strL "⛈️🌧️")
  else if z = 31 then some (strL "Mixed with showers", strL "🌦️")
  else if z = 32 then some (strL "Mixed with snow showers", strL "🌨️")
  else if z = 33 then some (strL "Overcast with light rain", strL "🌦️")
  else if z = 34 then some (strL "Overcast with light snow", strL "🌨️")
  else if z = 35 then some (strL "Overcast with mixture of snow and rain", strL "🌧️❄️")
  else none

/-- The per-run inputs of `write_passes_to_ics` that are external to the
row being rendered: the local-time offset, observing-site configuration,
clock readings, and the per-row almanac oracle outputs (astroplan is the
spec's black-box almanac; its four formatted times are inputs here). -/
structure IcsCtx where
  lstH : ℤ
  lstM : ℤ
  obs_timezone : Str
  obs_name : Str
  obs_lat : ℚ
  obs_lon : ℚ
  now_utc : ℤ
  update_now : ℤ
  sunset_lst : Str
  sunrise_lst : Str
  astro_dusk_lst : Str
  astro_dawn_lst : Str

/-- One iteration of `write_passes_to_ics`'s event loop (source lines
385-464).  `pict` is the loop-carried Python local holding the last
pictogram assigned by the `if row['totalcloudcover'] != "N/A"` guard
(source lines 408-410): when the guard is skipped and no earlier row bound
it, `summary = f"{pict} {satname}"` raises `NameError`; the `"N/A"`
weather fields reaching `{...:.0f}`/`{...:.1f}` in the description raise
`ValueError`.  Returns the folded event lines and the updated `pict`. -/
def renderIcsEvent (ctx : IcsCtx) (pict : Option (Str × Str)) (row : ERow) :
    Except PErr (List Str × Option (Str × Str)) :=
  let off := ctx.lstH * 3600 + ctx.lstM * 60
  let r := row.pass_rec
  let event_url := strL "https://www.heavens-above.com/" ++ r.detail_url
  let start_lst := r.start_utc + off
  let end_lst := r.end_utc + off
  let start_lst_time := todStr (Int.fmod start_lst 86400)
  let max_lst_time := todStr (Int.fmod (r.max_utc + off) 86400)
  let end_lst_time := todStr (Int.fmod end_lst 86400)
  match (match row.totalcloudcover with
         | Cell.na => Except.ok pict
         | Cell.num _ =>
           match row.pictocode with
           | CellZ.num p =>
             match pictocodeHourly p with
             | some entry => Except.ok (some entry)
             | none => Except.error PErr.keyError
           | CellZ.na => Except.error PErr.keyError : Except PErr (Option (Str × Str))) with
  | .error e => .error e
  | .ok pictNew =>
  match pictNew with
  | none => .error .nameError
  | some entry =>
  let summary := entry.2 ++ [' '] ++ r.satname
  match fmtCell0 row.temperature with
  | .error e => .error e
  | .ok tempS =>
  match fmtCell1 row.windspeed with
  | .error e => .error e
  | .ok windS =>
  let sep32 := strL "================================"
  let sep40 := strL "----------------------------------------"
  let desc :=
    sep32 ++ ['\n']
    ++ r.satname ++ strL " | NORAD ID " ++ intStr r.satid ++ ['\n']
    ++ sep32 ++ ['\n']
    ++ strL "Mag : " ++ magRepr r.mag ++ ['\n']
    ++ strL "Duration : " ++ intStr (Int.fdiv r.duration 60) ++ strL " min "
      ++ intStr (Int.fmod r.duration 60) ++ strL " sec" ++ ['\n']
    ++ strL "Pass start : " ++ start_lst_time ++ strL " (el=" ++ decRepr r.start_alt
      ++ strL "° / " ++ r.start_az ++ [')', '\n']
    ++ strL "Highest : " ++ max_lst_time ++ strL " (el=" ++ decRepr r.max_alt
      ++ strL "° / " ++ r.max_az ++ [')', '\n']
    ++ strL "Pass end : " ++ end_lst_time ++ strL " (el=" ++ decRepr r.end_alt
      ++ strL "° / " ++ r.end_az ++ [')', '\n']
    ++ sep40 ++ ['\n']
    ++ strL "Sunset : " ++ ctx.sunset_lst ++ ['\n']
    ++ strL "Astronomical dusk : " ++ ctx.astro_dusk_lst ++ ['\n']
    ++ strL "Astronomical dawn : " ++ ctx.astro_dawn_lst ++ ['\n']
    ++ strL "Sunrise : " ++ ctx.sunrise_lst ++ ['\n']
    ++ sep40 ++ ['\n']
    ++ entry.2 ++ [' '] ++ entry.1 ++ ['\n']
    ++ strL "Clouds : " ++ cellStr row.totalcloudcover ++ strL "% (L:" ++ cellStr row.lowclouds
      ++ strL " M:" ++ cellStr row.midclouds ++ strL " H:" ++ cellStr row.highclouds ++ [')', '\n']
    ++ strL "Temperature : " ++ tempS ++ strL " °C" ++ ['\n']
    ++ strL "Wind : " ++ windS ++ strL " m/s" ++ ['\n']
    ++ strL "Note : Weather data is updated every 24 hours" ++ ['\n']
    ++ sep40 ++ ['\n']
    ++ strL "Data Provided by Heavens-Above / Meteoblue" ++ ['\n']
    ++ strL "Updated at " ++ isotStr ctx.update_now ++ strL " (UTC)" ++ ['\n']
    ++ sep32 ++ ['\n']
    ++ strL "SSDL SatPass Notification System" ++ ['\n']
    ++ strL " - with SatPhotometry Library" ++ ['\n']
    ++ strL "(c) 2026 Kiyoaki Okudaira - Kyushu University" ++ ['\n']
    ++ sep32
  let uid := intStr r.satid ++ ['.'] ++ fmt1fFloat r.mjd ++ strL "@SatPass"
  let event_lines : List Str :=
    [ strL "BEGIN:VEVENT",
      strL "UID:" ++ uid,
      strL "DTSTAMP:" ++ icsDtUtc ctx.now_utc,
      strL "DTSTART;TZID=" ++ ctx.obs_timezone ++ [':'] ++ icsDtLocal start_lst,
      strL "DTEND;TZID=" ++ ctx.obs_timezone ++ [':'] ++ icsDtLocal end_lst,
      strL "SUMMARY:" ++ icsEscape summary,
      strL "LOCATION:" ++ ctx.obs_name,
      strL "GEO:" ++ fmtFix 6 ctx.obs_lat ++ [';'] ++ fmtFix 6 ctx.obs_lon,
      strL "X-APPLE-STRUCTURED-LOCATION;VALUE=URI;X-APPLE-RADIUS=72;X-TITLE="
        ++ ctx.obs_name ++ strL ":geo:" ++ fmtFix 6 ctx.obs_lat ++ [','] ++ fmtFix 6 ctx.obs_lon,
      strL "URL:" ++ icsEscapeUri event_url,
      strL "DESCRIPTION:" ++ icsEscape desc,
      strL "END:VEVENT" ]
  .ok (event_lines.map foldIcsLine, pictNew)

/-- `Except` result test (Python: did the call return rather than raise). -/
def exceptOk {ε α : Type} : Except ε α → Bool
  | .ok _ => true
  | .error _ => false

/-! ## Concrete inputs for the claim theorems -/

def issName : Str := strL "ISS"

/-- A summary-page row whose pass crossed local midnight before the peak:
start time-of-day 23:50, peak at day-fraction 61000.00694 (00:10 UTC). -/
def c1Html : Str := strL "<tr class=\"clickableRow\" onclick=\"window.location='/passdetails.aspx?satid=25544&mjd=61000.00694&type=V'\"><td>12 Mar</td><td>2.5</td><td>23:50:00</td><td>10Â°</td><td>SSW</td><td>00:10:00</td><td>45Â°</td><td>S</td><td>00:15:00</td><td>10Â°</td><td>SE</td><td>visible</td></tr>"

/-- Two rows: one whose pass crosses local midnight between the peak and
the end (23:58 → 23:59 → 00:03), and one wholly inside a day with
end = start + 90 s. -/
def c3Html : Str :=
  strL "<tr class=\"clickableRow\" onclick=\"window.location='/passdetails.aspx?satid=25544&mjd=61000.99931&type=V'\"><td>12 Mar</td><td>2.5</td><td>23:58:00</td><td>10Â°</td><td>SSW</td><td>23:59:00</td><td>45Â°</td><td>S</td><td>00:03:00</td><td>10Â°</td><td>SE</td><td>visible</td></tr>"
  ++ strL "<tr class=\"clickableRow\" onclick=\"window.location='/passdetails.aspx?satid=25544&mjd=61001.04201&type=V'\"><td>13 Mar</td><td>2.5</td><td>01:00:00</td><td>10Â°</td><td>SSW</td><td>01:00:30</td><td>45Â°</td><td>S</td><td>01:01:30</td><td>10Â°</td><td>SE</td><td>visible</td></tr>"

/-- A pass-summary page in which the structural row marker (and the row's
closing tag) are present only in HTML-entity-encoded form. -/
def c6EncHtml : Str := strL "&lt;tr class=\"clickableRow\" onclick=\"window.location='/passdetails.aspx?satid=25544&mjd=61000.00694&type=V'\"&gt;<td>12 Mar</td><td>2.5</td><td>23:50:00</td><td>10Â°</td><td>SSW</td><td>00:10:00</td><td>45Â°</td><td>S</td><td>00:15:00</td><td>10Â°</td><td>SE</td><td>visible</td>&lt;/tr&gt;"

/-- A raw row whose detail link is an anchor `href` with `&amp;`-encoded
query separators. -/
def c6AmpHtml : Str := strL "<tr class=\"clickableRow\"><a href=\"/passdetails.aspx?satid=7&amp;mjd=61000.5&amp;type=V\">x</a><td>12 Mar</td><td>2.5</td><td>23:10:00</td><td>10Â°</td><td>SSW</td><td>23:12:00</td><td>45Â°</td><td>S</td><td>23:14:00</td><td>10Â°</td><td>SE</td><td>visible</td></tr>"

/-- Two rows: the first magnitude cell is not a number, the second is. -/
def c9Html : Str :=
  strL "<tr class=\"clickableRow\" onclick=\"window.location='/passdetails.aspx?satid=25544&mjd=61000.04201&type=V'\"><td>12 Mar</td><td>?</td><td>01:00:00</td><td>10Â°</td><td>SSW</td><td>01:00:30</td><td>45Â°</td><td>S</td><td>01:01:30</td><td>10Â°</td><td>SE</td><td>visible</td></tr>"
  ++ strL "<tr class=\"clickableRow\" onclick=\"window.location='/passdetails.aspx?satid=25544&mjd=61001.04201&type=V'\"><td>13 Mar</td><td>3.1</td><td>01:00:00</td><td>10Â°</td><td>SSW</td><td>01:00:30</td><td>45Â°</td><td>S</td><td>01:01:30</td><td>10Â°</td><td>SE</td><td>visible</td></tr>"

/-- A well-formed row whose elevation cells carry the mojibake suffix the
parser strips. -/
def c10GoodRow : Str := strL "<tr class=\"clickableRow\" onclick=\"window.location='/passdetails.aspx?satid=25544&mjd=61000.04201&type=V'\"><td>12 Mar</td><td>2.5</td><td>01:00:00</td><td>10.0Â°</td><td>SSW</td><td>01:00:30</td><td>45.0Â°</td><td>S</td><td>01:01:30</td><td>10.0Â°</td><td>SE</td><td>visible</td></tr>"

/-- A row whose start-elevation cell carries the genuine one-character
degree sign, which `_strip_deg` does not remove. -/
def c10BadRow : Str := strL "<tr class=\"clickableRow\" onclick=\"window.location='/passdetails.aspx?satid=25544&mjd=61001.04201&type=V'\"><td>13 Mar</td><td>2.5</td><td>01:00:00</td><td>10°</td><td>SSW</td><td>01:00:30</td><td>45°</td><td>S</td><td>01:01:30</td><td>10°</td><td>SE</td><td>visible</td></tr>"

def c10Html : Str := c10GoodRow ++ c10BadRow

/-- A fully populated pass record used as the base of the direct test
records (field values as `parse_summary2table` would emit them). -/
def baseRec : Record :=
  { satid := 25544, satname := issName, mag := some (5/2),
    duration := 160,
    start_utc := 5279114832, start_alt := 10, start_az := strL "SSW",
    max_utc := 5279114900, max_alt := 45, max_az := strL "S",
    end_utc := 5279114992, end_alt := 10, end_az := strL "SE",
    visible := true, detail_url := strL "/passdetails.aspx?satid=25544&mjd=61100.86667&type=V",
    mjd := FloatV.real (61100 + 86667/100000) }

/-- A pass starting 2026-03-01T20:47:12 UTC (day 61100 of the MJD epoch,
second 74832). -/
def r2047 : Record := baseRec

/-- A pass starting 2026-03-01T21:00:01 UTC. -/
def r2101 : Record :=
  { baseRec with start_utc := 5279115601, max_utc := 5279115700, end_utc := 5279115761 }

/-- The hourly forecast sample at 2026-03-01T20:00:00 UTC. -/
def s20 : WSample :=
  { time := 5279112000, totalcloudcover := 40, highclouds := 10, midclouds := 20,
    lowclouds := 30, temperature := 5, windspeed := 3, pictocode := 7 }

/-- A pass row whose weather join missed: every weather field holds the
`"N/A"` placeholder. -/
def naRow : ERow :=
  { pass_rec := baseRec, totalcloudcover := .na, highclouds := .na, midclouds := .na,
    lowclouds := .na, temperature := .na, windspeed := .na, pictocode := .na }

/-- The `write_passes_to_ics` surroundings used for the concrete render:
UTC+9 site, with almanac-oracle outputs supplied as opaque strings. -/
def ctx0 : IcsCtx :=
  { lstH := 9, lstM := 0, obs_timezone := strL "Asia/Tokyo", obs_name := strL "KUPT",
    obs_lat := 33 + 1/2, obs_lon := 130 + 1/2, now_utc := 5279000000,
    update_now := 5279000000, sunset_lst := strL "18:30", sunrise_lst := strL "06:30",
    astro_dusk_lst := strL "19:55", astro_dawn_lst := strL "05:05" }

/-- A pictogram binding left over from an earlier loop iteration. -/
def stalePict : Str × Str := (strL "Clear, cloudless sky", strL "☀️")

/-- Two distinct records of one satellite whose day-fractions round to the
same tenth of a day. -/
def rec71 : Record := { baseRec with mjd := FloatV.real 61000 }

def rec72 : Record :=
  { baseRec with
    mjd := FloatV.real (61000 + 1/32)
    start_utc := baseRec.start_utc + 2700
    max_utc := baseRec.max_utc + 2700
    end_utc := baseRec.end_utc + 2700 }

/-! ## Claim theorems -/

set_option maxRecDepth 100000

/-- C1 (code_bug evaluation): on a synthetic row whose start time-of-day
is 23:50 while the peak day-fraction has time-of-day 00:10 (a pass
spanning local midnight), `parse_summary2table` emits a record with
`start_utc > max_utc`: the one-day backward shift of the start is computed
but never assigned (source lines 245-246), so the reconciled ordering
`start_utc ≤ max_utc ≤ end_utc` fails even though the day-fraction is
valid, and the start is NOT placed on the calendar day before the peak. -/
theorem c1_start_after_peak_eval :
    (parseSummary2table c1Html issName).map
        (List.map fun r => (r.start_utc, r.max_utc, r.end_utc))
      = .ok [(5270485800, 5270400600, 5270400900)]
    ∧ (parseSummary2table c1Html issName).map
        (List.map fun r => (decide (r.start_utc ≤ r.max_utc), r.mjd))
      = .ok [(false, FloatV.real (61000 + 694/100000))] := by
  constructor <;> decide

/-- C2 (code_bug evaluation): the weather join attaches the sample at the
start hour truncated to the top of the hour — a record starting 20:47:12
joins the 20:00:00 sample — but on a record with no sample at its
truncated hour (21:00:01 with no 21:00 sample) the loop raises
`IndexError` instead of writing the `"N/A"` placeholders: `np.where`
returns a 1-tuple, so the source's `len(idxs) > 0` is always true and the
`"N/A"` branch is unreachable. -/
theorem c2_join_eval :
    weatherJoin [s20] [r2047]
      = .ok [{ pass_rec := r2047, totalcloudcover := .num 40, highclouds := .num 10,
               midclouds := .num 20, lowclouds := .num 30, temperature := .num 5,
               windspeed := .num 3, pictocode := .num 7 }]
    ∧ weatherJoin [s20] [r2047, r2101] = .error .indexError := by
  constructor <;> decide

/-- C3 (code_bug evaluation): the recorded duration always equals the
emitted `end_utc - start_utc` truncated to seconds, and equals exactly 90
for a row with end = start + 90 s — but for a row whose pass crosses
midnight between start and end the duration is `-86100`, negative, because
the one-day forward shift of the end is computed but never assigned and
the duration is computed from the unshifted instants. -/
theorem c3_duration_eval :
    (parseSummary2table c3Html issName).map (List.map fun r => r.duration)
      = .ok [-86100, 90]
    ∧ (parseSummary2table c3Html issName).map
        (List.map fun r => r.end_utc - r.start_utc)
      = .ok [-86100, 90]
    ∧ ((-86100 : ℤ) < 0) := by
  refine ⟨by decide, by decide, by decide⟩

/-- C4 (counterexample): the three "good pass" selections do not apply one
identical predicate.  With configured thresholds `min_alt = 30`,
`min_duration = 30` and no time window, a visible record with
`max_alt = 30.0` and `duration = 121` passes the ICS (and bydate)
selection but fails the bysat `good_condition`, which hard-codes
`max_alt > 30` (strict) and `duration > 120`. -/
theorem c4_sites_differ :
    icsGoodFilter 30 30 none ⟨30, 121, true, strL "morning"⟩ = true
    ∧ bysatGoodCondition 30 30 none ⟨30, 121, true, strL "morning"⟩ = false := by
  constructor <;> decide

/-- C4 (amended): the ICS and bydate selections apply the same predicate —
configured thresholds, inclusive `≥` on altitude (30.0 passes threshold
30), strict `>` on duration (60 fails threshold 60), visibility, and the
window clause when a morning/evening window is requested; the bysat
selection ignores the configured thresholds entirely (it is invariant in
them), using hard-coded `max_alt > 30` and `duration > 120` instead. -/
theorem c4_amended_predicates :
    (∀ (a : ℚ) (d : ℤ) (tw : Option Str) (r : FRow),
        bydateGoodFilter a d tw r = icsGoodFilter a d tw r)
    ∧ (∀ (a a2 : ℚ) (d d2 : ℤ) (tw : Option Str) (r : FRow),
        bysatGoodCondition a d tw r = bysatGoodCondition a2 d2 tw r)
    ∧ icsGoodFilter 30 0 none ⟨30, 1, true, strL "morning"⟩ = true
    ∧ icsGoodFilter 0 60 none ⟨90, 60, true, strL "morning"⟩ = false := by
  exact ⟨fun a d tw r => rfl, fun a a2 d d2 tw r => rfl, by decide, by decide⟩

/-- C5 (code_bug evaluation): for a record whose weather join missed, both
Slack table renderers complete and print the `"N/A"` placeholder — but
the ICS event writer does not: with no pictogram bound by an earlier row
it raises `NameError` at `summary = f"{pict} {satname}"`, and with a
stale binding carried over from another record it still raises
`ValueError` at `f"{row['temperature']:.0f}"`. -/
theorem c5_render_eval :
    exceptOk (renderBysatRow 9 0 naRow) = true
    ∧ (match renderBysatRow 9 0 naRow with
       | .ok s => containsSeq (strL "N/A") s
       | .error _ => false) = true
    ∧ exceptOk (renderBydateRow 9 0 naRow) = true
    ∧ (match renderBydateRow 9 0 naRow with
       | .ok s => containsSeq (strL "N/A") s
       | .error _ => false) = true
    ∧ renderIcsEvent ctx0 none naRow = .error .nameError
    ∧ renderIcsEvent ctx0 (some stalePict) naRow = .error .valueError := by
  refine ⟨by decide, by decide, by decide, by decide, by decide, by decide⟩

/-- C6 (counterexample): the pass-page parser does not unescape before
locating the structural markers.  On an input whose row marker appears
only entity-encoded, the parser finds no rows at all, while parsing the
unescaped text finds the row — so entity encoding does hide the
structural markers from `parse_summary2table`. -/
theorem c6_encoded_marker_hidden :
    parseSummary2table c6EncHtml issName = .ok []
    ∧ (parseSummary2table (unescapeHtml c6EncHtml) issName).map
        (List.map fun r => r.satid) = .ok [25544] := by
  constructor <;> decide

/-- C6 (amended): only the matched detail-page reference is HTML-entity
unescaped, after the pattern matching: an `href` whose query separators
are `&amp;`-encoded yields an unescaped `detail_url` (and a correctly
parsed satid and day-fraction), while a row marker present only in
entity-encoded form is not found at all. -/
theorem c6_unescape_after_match :
    (parseSummary2table c6AmpHtml issName).map
        (List.map fun r => (r.satid, r.detail_url))
      = .ok [(7, strL "/passdetails.aspx?satid=7&mjd=61000.5&type=V")]
    ∧ (parseSummary2table c6AmpHtml issName).map (List.map fun r => r.mjd)
      = .ok [FloatV.real (122001/2)]
    ∧ parseSummary2table c6EncHtml issName = .ok [] := by
  refine ⟨by decide, by decide, by decide⟩

/-- C7 (counterexample): two distinct pass records of the same satellite
whose day-fractions round to the same tenth of a day receive the same
calendar UID `"{satid}.{mjd:.1f}@SatPass"` — the identifier is not
globally unique. -/
theorem c7_uid_collision :
    uidOfRecord rec71 = uidOfRecord rec72
    ∧ rec71 ≠ rec72
    ∧ uidOfRecord rec71 = strL "25544.61000.0@SatPass" := by
  refine ⟨by decide, by decide, by decide⟩

/-- C7 (amended): the event identifier is a function of the satellite
catalog number and the day-fraction's one-decimal rendering alone, so it
distinguishes records only up to that pair; records of one satellite whose
day-fractions round to the same tenth necessarily collide. -/
theorem c7_uid_amended :
    ∀ r1 r2 : Record, r1.satid = r2.satid →
      fmt1fFloat r1.mjd = fmt1fFloat r2.mjd →
      uidOfRecord r1 = uidOfRecord r2 := by
  intro r1 r2 h1 h2
  simp only [uidOfRecord, h1, h2]

/-- Witness for the amended C7 theorem at the two concrete records. -/
theorem c7_uid_amended_witness :
    rec71.satid = rec72.satid
    ∧ fmt1fFloat rec71.mjd = fmt1fFloat rec72.mjd
    ∧ uidOfRecord rec71 = uidOfRecord rec72 :=
  ⟨by decide, by decide, c7_uid_amended rec71 rec72 (by decide) (by decide)⟩

/-- Every segment the folding loop emits stays within the 75-character
limit, as long as the fuel covers the 74 characters of content each
iteration consumes. -/
theorem foldGo_all_le (fuel : ℕ) : ∀ line : Str, line.length ≤ 74 * fuel + 75 →
    ((foldGo fuel line).all fun seg => decide (seg.length ≤ 75)) = true := by
  induction fuel with
  | zero =>
    intro line h
    simp only [foldGo, List.all_cons, List.all_nil, Bool.and_true]
    simpa using h
  | succ n ih =>
    intro line h
    by_cases h75 : line.length ≤ 75
    · simp [foldGo, h75]
    · simp only [foldGo, h75, if_false, List.all_cons]
      rw [Bool.and_eq_true]
      refine ⟨by simp, ih _ ?_⟩
      have : 75 < line.length := Nat.lt_of_not_le h75
      simp only [List.length_cons, List.length_drop]
      omega

/-- Dropping the inserted leading space from every segment after the first
recovers exactly the folded-away text. -/
theorem foldGo_drop_flatten (fuel : ℕ) : ∀ l : Str,
    ((foldGo fuel (' ' :: l)).map (List.drop 1)).flatten = l := by
  induction fuel with
  | zero => intro l; simp [foldGo]
  | succ n ih =>
    intro l
    rw [foldGo]
    by_cases h75 : (' ' :: l).length ≤ 75
    · rw [if_pos h75]; simp
    · rw [if_neg h75]
      simp only [List.map_cons, List.flatten_cons]
      have ht : (' ' :: l).take 75 = ' ' :: l.take 74 := rfl
      have hd : (' ' :: l).drop 75 = l.drop 74 := rfl
      rw [ht, hd, ih (l.drop 74)]
      simp [List.take_append_drop]

/-- Unfolding the segments reproduces the original line, whatever the
fuel. -/
theorem foldGo_unfold (fuel : ℕ) : ∀ line : Str, unfoldSegs (foldGo fuel line) = line := by
  induction fuel with
  | zero => intro line; simp [foldGo, unfoldSegs]
  | succ n _ =>
    intro line
    by_cases h75 : line.length ≤ 75
    · simp [foldGo, h75, unfoldSegs]
    · simp only [foldGo, h75, if_false, unfoldSegs]
      rw [foldGo_drop_flatten n (line.drop 75)]
      simp [List.take_append_drop]

/-- Every segment after the first starts with the inserted space. -/
theorem foldGo_tail_space (fuel : ℕ) : ∀ l : Str,
    ((foldGo fuel (' ' :: l)).all fun seg => decide (seg.take 1 = [' '])) = true := by
  induction fuel with
  | zero => intro l; simp [foldGo]
  | succ n ih =>
    intro l
    rw [foldGo]
    by_cases h75 : (' ' :: l).length ≤ 75
    · rw [if_pos h75]; simp
    · rw [if_neg h75, List.all_cons, Bool.and_eq_true]
      exact ⟨by simp [List.take], ih _⟩

/-- A line within the limit folds to the single segment it already is. -/
theorem foldSegments_short (line : Str) (h : line.length ≤ 75) :
    foldSegments line = [line] := by
  unfold foldSegments
  cases hl : line.length with
  | zero => simp [foldGo]
  | succ n => rw [foldGo, if_pos h]

/-- Mapping a function over the final result distributes through the
exception plumbing. -/
theorem except_map_bind_push {ε α β γ : Type} (x : Except ε α) (f : α → Except ε β) (g : β → γ) :
    Except.map g (x.bind f) = x.bind fun a => Except.map g (f a) := by
  cases x <;> rfl

/-- C9: replacing the magnitude cell of a full row (the cell at index 1)
changes nothing but the record's magnitude field, which becomes exactly
`float(cell)` when the cell parses and the explicit `None` otherwise — an
unparseable magnitude neither aborts the row nor leaks a zero; and on a
concrete page whose first row has the magnitude cell `?`, the parse
completes with the first record's magnitude explicitly missing and the
second row parsed normally. -/
theorem c9_missing_magnitude :
    (∀ (name url c0 m m2 cA cB cC cD cE cF cG cH cI cJ : Str) (rest : List Str),
        processCells name url (c0 :: m :: cA :: cB :: cC :: cD :: cE :: cF :: cG :: cH :: cI :: cJ :: rest)
          = Except.map (Option.map fun r => { r with mag := pyFloat m })
              (processCells name url (c0 :: m2 :: cA :: cB :: cC :: cD :: cE :: cF :: cG :: cH :: cI :: cJ :: rest)))
    ∧ (parseSummary2table c9Html issName).map (List.map fun r => r.mag)
        = .ok [none, some (31/10)]
    ∧ pyFloat (strL "?") = none := by
  refine ⟨?_, by decide, by decide⟩
  intro name url c0 m m2 cA cB cC cD cE cF cG cH cI cJ rest
  simp only [processCells, List.length_cons, List.getD_cons_zero, List.getD_cons_succ]
  have hlen : ¬ (rest.length + 1 + 1 + 1 + 1 + 1 + 1 + 1 + 1 + 1 + 1 + 1 + 1 < 12) := by omega
  rw [if_neg hlen, if_neg hlen]
  simp only [except_map_bind_push, except_map_ok]
  congr 1

/-- A row whose retained cells contain an elevation cell that does not
become a float after the mojibake strip makes the row body raise: the
`_strip_deg` conversions are the first fallible statements of the row
body, and nothing guards them. -/
theorem processCells_err_of_bad_elev (name url : Str) (cells : List Str)
    (h12 : 12 ≤ cells.length)
    (hbad : exceptOk (stripDeg (cells.getD 3 [])) = false
          ∨ exceptOk (stripDeg (cells.getD 6 [])) = false
          ∨ exceptOk (stripDeg (cells.getD 9 [])) = false) :
    exceptOk (processCells name url cells) = false := by
  simp only [processCells]
  rw [if_neg (by omega)]
  cases h3 : stripDeg (cells.getD 3 []) with
  | error e => simp [exceptOk]
  | ok q3 =>
    cases h6 : stripDeg (cells.getD 6 []) with
    | error e => simp [exceptOk]
    | ok q6 =>
      cases h9 : stripDeg (cells.getD 9 []) with
      | error e => simp [exceptOk]
      | ok q9 =>
        exfalso
        rcases hbad with h | h | h <;>
          simp only [h3, h6, h9, exceptOk] at h <;> cases h

/-- An erroring row aborts the whole row loop. -/
theorem parseRows_err (name : Str) : ∀ (trs : List Str) (tr : Str), tr ∈ trs →
    exceptOk (processRow name tr) = false → exceptOk (parseRows name trs) = false := by
  intro trs
  induction trs with
  | nil => intro tr h; cases h
  | cons t ts ih =>
    intro tr hmem herr
    rcases List.mem_cons.mp hmem with rfl | hmem2
    · cases hp : processRow name tr with
      | error e => simp [parseRows, hp, exceptOk]
      | ok o => rw [hp] at herr; simp [exceptOk] at herr
    · cases hp : processRow name t with
      | error e => simp [parseRows, hp, exceptOk]
      | ok o =>
        have hts := ih tr hmem2 herr
        cases hr : parseRows name ts with
        | error e => simp [parseRows, hp, hr, exceptOk]
        | ok rest => rw [hr] at hts; simp [exceptOk] at hts

/-- C10: `parse_summary2table` is total over a retained row only when each
of its three elevation cells converts to a float after removing the
two-character mojibake `Â°`: if any of the three conversions fails — as it
does for a cell carrying the genuine one-character degree sign — the
uncaught `ValueError` aborts the entire parse; the per-row defensive skip
guards only the cell count. -/
theorem c10_elev_precondition (s name tr : Str)
    (hmem : tr ∈ findTrRows s)
    (h12 : 12 ≤ (extractCellsText tr).length)
    (hbad : exceptOk (stripDeg ((extractCellsText tr).getD 3 [])) = false
          ∨ exceptOk (stripDeg ((extractCellsText tr).getD 6 [])) = false
          ∨ exceptOk (stripDeg ((extractCellsText tr).getD 9 [])) = false) :
    exceptOk (parseSummary2table s name) = false := by
  apply parseRows_err name (findTrRows s) tr hmem
  have h := processCells_err_of_bad_elev name (extractPassdetailsUrl tr)
    (extractCellsText tr) h12 hbad
  simpa [processRow] using h

/-- Witness: a page holding one well-formed row (mojibake degree suffix,
which parses) and one row whose elevation cells carry the genuine degree
sign; the whole parse aborts, while the well-formed row alone parses with
the expected stripped elevations. -/
theorem c10_elev_precondition_witness :
    c10BadRow ∈ findTrRows c10Html
    ∧ 12 ≤ (extractCellsText c10BadRow).length
    ∧ exceptOk (stripDeg ((extractCellsText c10BadRow).getD 3 [])) = false
    ∧ exceptOk (parseSummary2table c10Html issName) = false
    ∧ (parseSummary2table c10GoodRow issName).map
        (List.map fun r => (r.start_alt, r.max_alt, r.end_alt)) = .ok [(10, 45, 10)] :=
  ⟨by decide, by decide, by decide,
   c10_elev_precondition c10Html issName c10BadRow (by decide) (by decide)
     (Or.inl (by decide)),
   by decide⟩

/-- C8: `_fold_ics_line` leaves lines of at most 75 characters unchanged
(every line is its own 75-character truncation when short), folds a longer
line into the CRLF-join of its segments, every emitted segment has at most
75 characters, every segment after the first begins with the one inserted
space, and removing the CRLF-plus-space folding reproduces the original
line; a 200-character line folds into segments of lengths 75, 75 and 52. -/
theorem c8_fold_ics_line :
    (∀ line : Str,
        ((foldSegments line).all fun seg => decide (seg.length ≤ 75)) = true
        ∧ foldIcsLine (line.take 75) = line.take 75
        ∧ foldIcsLine line = List.intercalate crlf (foldSegments line)
        ∧ unfoldSegs (foldSegments line) = line
        ∧ (((foldSegments line).drop 1).all fun seg => decide (seg.take 1 = [' '])) = true)
    ∧ (foldSegments (List.replicate 200 'a')).map List.length = [75, 75, 52] := by
  constructor
  · intro line
    refine ⟨foldGo_all_le line.length line (by omega), ?_, ?_, foldGo_unfold line.length line, ?_⟩
    · have h : (line.take 75).length ≤ 75 := by
        simp [List.length_take]
      simp [foldIcsLine, h]
    · by_cases h75 : line.length ≤ 75
      · rw [foldSegments_short line h75]
        simp [foldIcsLine, h75, List.intercalate]
      · simp [foldIcsLine, h75]
    · unfold foldSegments
      cases hl : line.length with
      | zero => simp [foldGo]
      | succ n =>
        rw [foldGo]
        by_cases h75 : line.length ≤ 75
        · simp [h75]
        · simp only [h75, if_false, List.drop_succ_cons, List.drop_zero]
          exact foldGo_tail_space n (line.drop 75)
  · decide

end SatPass
